import Mathlib

/-!
# Verification of the hybrid-framework resilience bridge

A shallow embedding of `examples/hybrid-bridge.py` (classes `RateLimiter`,
`CircuitBreaker`, `HybridAgentBridge`) in Lean 4, together with theorems
settling the specification claims about it.

Modelling conventions:
* Python floats (tokens, timestamps, durations) are modelled as rationals `ℚ`.
* `time.time()` is passed in explicitly: each `acquire`/breaker call takes a
  `now` argument; `HybridAgentBridge.execute` takes a start time `t0` (used for
  the rate-limiter refill, the cache-expiry check and the breaker cool-down
  check) and a completion time `t1` (used for the latency, the cache insertion
  timestamp and the breaker failure timestamp).
* Python exceptions are modelled as values: the backend call is an
  `Except String Response` (the `String` is the exception message), and the
  bridge converts every exception to an error `Response`, mirroring the
  `try/except` in `HybridAgentBridge.execute`.
* The Python cache dict is modelled as a function `String → Option CacheEntry`;
  `del` maps the key to `none`.
* The cache key `f"msg:{hash(message.content)}"` uses Python's deterministic
  per-run `hash`; the digest is modelled as the content itself prefixed with
  `"msg:"` (deterministic; hash collisions are not modelled).
* Telemetry (`record_metric` / `end_trace`) is side-effect-free in the model:
  `execute` additionally returns the list of metric names it recorded and the
  error message it would have written into the trace metadata.
-/

/-- `Message` dataclass from `agno_prototype` (the `timestamp` and `metadata`
fields play no role in the bridge and are kept as opaque payload). -/
structure Message where
  content : String
  user_id : String
  deriving DecidableEq, Repr

/-- `Response` dataclass from `agno_prototype`. -/
structure Response where
  content : String
  confidence : ℚ
  processing_time : ℚ
  tools_used : List String
  success : Bool
  deriving DecidableEq, Repr

/-! ## RateLimiter (token bucket), `hybrid-bridge.py` lines 105-124 -/

/-- State of the Python `RateLimiter` object. -/
structure RateLimiter where
  rate : ℚ
  capacity : ℚ
  tokens : ℚ
  last_update : ℚ
  deriving DecidableEq, Repr

/-- `RateLimiter.__init__(rate, capacity)`: the bucket starts full and the
refill timestamp is the construction time. -/
def mkRateLimiter (rate capacity now : ℚ) : RateLimiter :=
  { rate := rate, capacity := capacity, tokens := capacity, last_update := now }

/-- `RateLimiter.acquire(tokens)` (the parameter is renamed `cost` here): refill
`elapsed * rate` tokens capped at `capacity`, set `last_update := now`, then
deduct `cost` and answer `true` iff the refilled amount covers it. -/
def RateLimiter.acquire (s : RateLimiter) (now cost : ℚ) : Bool × RateLimiter :=
  let avail := min s.capacity (s.tokens + (now - s.last_update) * s.rate)
  if cost ≤ avail then
    (true, { s with tokens := avail - cost, last_update := now })
  else
    (false, { s with tokens := avail, last_update := now })

/-- Run a sequence of `acquire` calls of cost 1 at the given times, collecting
the answers. -/
def RateLimiter.acquireSeq (s : RateLimiter) : List ℚ → List Bool × RateLimiter
  | [] => ([], s)
  | n :: ns =>
    let r := s.acquire n 1
    let rest := r.2.acquireSeq ns
    (r.1 :: rest.1, rest.2)

/-- Rate-limiter states reachable from a freshly constructed bucket with
nonnegative rate and capacity, through `acquire` calls with nonnegative cost
whose `now` arguments never move the clock backwards (each call's `now` is at
least the previous call's, i.e. at least `last_update`). -/
inductive RateLimiter.Reached : RateLimiter → Prop
  | init (r c t : ℚ) (hr : 0 ≤ r) (hc : 0 ≤ c) : RateLimiter.Reached (mkRateLimiter r c t)
  | step (s : RateLimiter) (n k : ℚ) (hs : RateLimiter.Reached s)
      (hn : s.last_update ≤ n) (hk : 0 ≤ k) :
      RateLimiter.Reached (s.acquire n k).2

/-! ## CircuitBreaker, `hybrid-bridge.py` lines 126-161 -/

/-- The three breaker states `"closed"`, `"open"`, `"half-open"`. -/
inductive BState
  | closed
  | opened
  | halfOpen
  deriving DecidableEq, Repr

/-- State of the Python `CircuitBreaker` object. -/
structure CircuitBreaker where
  failure_threshold : Nat
  timeout : ℚ
  failures : Nat
  last_failure : Option ℚ
  state : BState
  deriving DecidableEq, Repr

/-- `CircuitBreaker.__init__(failure_threshold, timeout)`. -/
def mkCircuitBreaker (threshold : Nat) (timeout : ℚ) : CircuitBreaker :=
  { failure_threshold := threshold, timeout := timeout,
    failures := 0, last_failure := none, state := .closed }

/-- The admission phase of `CircuitBreaker.call` (lines 138-143), before the
wrapped operation is awaited: in state `"open"`, the call is rejected
(`none`, modelling `raise Exception("Circuit breaker is open")`) unless
`now - last_failure > timeout`, in which case the state becomes `"half-open"`
and the call proceeds. An open breaker with no recorded failure time would
raise a `TypeError` in Python; that is likewise modelled as a rejection
without invoking the operation (this situation is unreachable). -/
def CircuitBreaker.pre (c : CircuitBreaker) (now : ℚ) : Option CircuitBreaker :=
  match c.state with
  | .opened =>
    match c.last_failure with
    | some lf => if c.timeout < now - lf then some { c with state := .halfOpen } else none
    | none => none
  | _ => some c

/-- The completion phase of `CircuitBreaker.call` (lines 145-161), once the
wrapped operation has returned (`ok = true`) or raised (`ok = false`): a
return while `"half-open"` closes the breaker and resets the counter; a raise
increments the counter, refreshes `last_failure`, and opens the breaker once
the counter reaches the threshold. -/
def CircuitBreaker.post (c : CircuitBreaker) (now : ℚ) (ok : Bool) : CircuitBreaker :=
  if ok then
    if c.state = .halfOpen then { c with state := .closed, failures := 0 } else c
  else
    let f := c.failures + 1
    if c.failure_threshold ≤ f then
      { c with failures := f, last_failure := some now, state := .opened }
    else
      { c with failures := f, last_failure := some now }

/-- Breaker states reachable from construction through `call` invocations.
`admitted` observes the state right after the admission phase let a call
through (in Python the state field holds `"half-open"` while the trial
operation is awaited); `completed` observes the state after the wrapped
operation returned or raised. -/
inductive CircuitBreaker.Reached : CircuitBreaker → Prop
  | init (t : Nat) (q : ℚ) : CircuitBreaker.Reached (mkCircuitBreaker t q)
  | admitted (c c' : CircuitBreaker) (n : ℚ) (hc : CircuitBreaker.Reached c)
      (h : c.pre n = some c') : CircuitBreaker.Reached c'
  | completed (c c' : CircuitBreaker) (n m : ℚ) (b : Bool) (hc : CircuitBreaker.Reached c)
      (h : c.pre n = some c') : CircuitBreaker.Reached (c'.post m b)

/-! ## Response cache, `hybrid-bridge.py` lines 196-216 -/

/-- A cache slot: the cached response and its insertion timestamp. -/
structure CacheEntry where
  response : Response
  timestamp : ℚ
  deriving DecidableEq, Repr

/-- The bridge's cache dict `self.cache`, as a total map from keys. -/
def Cache : Type := String → Option CacheEntry

/-- `HybridAgentBridge._get_cache_key`: deterministic digest of the message
content (Python: `f"msg:{hash(message.content)}"`). -/
def getCacheKey (m : Message) : String := "msg:" ++ m.content

/-- `HybridAgentBridge._check_cache`: a present entry younger than `ttl` is a
hit; a present entry at least `ttl` old is deleted (`del self.cache[key]`) and
reported absent; a missing key is absent. Returns the lookup answer and the
(possibly shrunk) cache. -/
def checkCache (cache : Cache) (ttl : ℚ) (key : String) (now : ℚ) :
    Option Response × Cache :=
  match cache key with
  | none => (none, cache)
  | some e =>
    if now - e.timestamp < ttl then (some e.response, cache)
    else (none, fun k => if k = key then none else cache k)

/-- `HybridAgentBridge._update_cache`: unconditional overwrite of the slot. -/
def updateCache (cache : Cache) (key : String) (r : Response) (now : ℚ) : Cache :=
  fun k => if k = key then some { response := r, timestamp := now } else cache k

/-! ## HybridAgentBridge, `hybrid-bridge.py` lines 163-304 -/

/-- The mutable state of a `HybridAgentBridge` object (the fields the claims
are about: sub-component states, cache, TTL, and the aggregate counters). -/
structure Bridge where
  rate_limiter : RateLimiter
  circuit_breaker : CircuitBreaker
  cache : Cache
  cache_ttl : ℚ
  request_count : Nat
  error_count : Nat
  total_latency : ℚ

/-- `HybridAgentBridge.__init__`: `RateLimiter(rate=100, capacity=1000)` (whose
bucket timestamp is the construction time `now`), a default
`CircuitBreaker()` (threshold 5, timeout 60), an empty cache with
`cache_ttl = 300`, and zeroed counters. -/
def mkBridge (now : ℚ) : Bridge :=
  { rate_limiter := mkRateLimiter 100 1000 now,
    circuit_breaker := mkCircuitBreaker 5 60,
    cache := fun _ => none,
    cache_ttl := 300,
    request_count := 0,
    error_count := 0,
    total_latency := 0 }

/-- Everything one call of `HybridAgentBridge.execute` produces: the returned
response, the bridge state afterwards, whether the backend
(`self.prototype.execute`) was invoked, the error message recorded in the
trace metadata (if any), and the metric names recorded, in order. -/
structure ExecOutcome where
  response : Response
  bridge : Bridge
  backendInvoked : Bool
  traceError : Option String
  telemetry : List String

/-- The error response built in the `except` block of `execute` (lines
298-304): fixed apology text, zero confidence, no tools, `success = False`. -/
def errResponse (latency : ℚ) : Response :=
  { content := "I apologize, but I encountered an error. Please try again.",
    confidence := 0,
    processing_time := latency,
    tools_used := [],
    success := false }

/-- The `except` block of `execute` (lines 279-304): bump `error_count`,
record `request_error` and `error_rate` metrics, put the exception message in
the trace metadata, and return the generic error response. -/
def failOutcome (b : Bridge) (t0 t1 : ℚ) (msg : String) (invoked : Bool) : ExecOutcome :=
  { response := errResponse (t1 - t0),
    bridge := { b with error_count := b.error_count + 1 },
    backendInvoked := invoked,
    traceError := some msg,
    telemetry := ["request_error", "error_rate"] }

/-- `HybridAgentBridge.execute(message)` (lines 218-304). Stages in order:
1. `rate_limiter.acquire()`; on `False`, raise → caught: error outcome
   `"Rate limit exceeded - please retry"`.
2. cache lookup; on a hit, record `cache_hit` and return the cached response
   (no counter is touched).
3. `circuit_breaker.call(self.prototype.execute, message)`: the breaker
   admission phase may raise `"Circuit breaker is open"` → caught: error
   outcome. Otherwise the backend runs; `backend` holds its result
   (`Except.error msg` models a raised exception, which the breaker re-raises
   after its failure bookkeeping → caught: error outcome).
4. on a backend return: breaker success bookkeeping, cache store at `t1`,
   `request_count += 1`, `total_latency += (t1 - t0)`, success metrics. -/
def Bridge.execute (b : Bridge) (m : Message) (t0 t1 : ℚ)
    (backend : Except String Response) : ExecOutcome :=
  let a := b.rate_limiter.acquire t0 1
  let b0 : Bridge := { b with rate_limiter := a.2 }
  if a.1 then
    let key := getCacheKey m
    let c := checkCache b0.cache b0.cache_ttl key t0
    let b1 : Bridge := { b0 with cache := c.2 }
    match c.1 with
    | some r =>
      { response := r, bridge := b1, backendInvoked := false,
        traceError := none, telemetry := ["cache_hit"] }
    | none =>
      match b1.circuit_breaker.pre t0 with
      | none => failOutcome b1 t0 t1 "Circuit breaker is open" false
      | some cb =>
        match backend with
        | .error msg =>
          failOutcome { b1 with circuit_breaker := cb.post t1 false } t0 t1 msg true
        | .ok r =>
          { response := r,
            bridge := { b1 with
              circuit_breaker := cb.post t1 true,
              cache := updateCache b1.cache key r t1,
              request_count := b1.request_count + 1,
              total_latency := b1.total_latency + (t1 - t0) },
            backendInvoked := true,
            traceError := none,
            telemetry := ["request_success", "response_time", "confidence"] }
  else
    failOutcome b0 t0 t1 "Rate limit exceeded - please retry" false

/-! ## Concrete objects used in witnesses and counterexamples -/

/-- A sample request. -/
def sampleMsg : Message := { content := "I need a refund for order 12345", user_id := "user-001" }

/-- A successful backend response. -/
def okResponse : Response :=
  { content := "Refund initiated", confidence := 95/100, processing_time := 0,
    tools_used := ["parser", "processor", "generator"], success := true }

/-- A backend response that reports failure through its `success` flag rather
than by raising (the shape `IntelligentAgent.execute` returns from its own
`except` block, lines 359-370 of `agno-prototype.py`). -/
def failResponse : Response :=
  { content := "I apologize, but I encountered an error: denied", confidence := 0,
    processing_time := 0, tools_used := ["parser"], success := false }

/-- A fresh bridge whose rate limiter has no tokens and no refill, so the next
`acquire` is rejected. -/
def drainedBridge : Bridge :=
  { mkBridge 0 with rate_limiter := { rate := 0, capacity := 10, tokens := 0, last_update := 0 } }

/-- A fresh bridge whose breaker is open with a recent failure, so the next
call is rejected by the breaker. -/
def openBridge : Bridge :=
  { mkBridge 0 with circuit_breaker :=
    { failure_threshold := 5, timeout := 60, failures := 5,
      last_failure := some 0, state := .opened } }

/-- A fresh bridge whose breaker is half-open (threshold reached, cool-down
elapsed, trial pending). -/
def halfOpenBridge : Bridge :=
  { mkBridge 0 with circuit_breaker :=
    { failure_threshold := 5, timeout := 60, failures := 5,
      last_failure := some 0, state := .halfOpen } }

/-- A fresh bridge that already holds `okResponse` in its cache for
`sampleMsg`, inserted at time 0. -/
def cachedBridge : Bridge :=
  { mkBridge 0 with cache := updateCache (fun _ => none) (getCacheKey sampleMsg) okResponse 0 }

/-- An open breaker matching the spec scenario: threshold 3, timeout 1,
three failures, the last at time 0. -/
def openTestBreaker : CircuitBreaker :=
  { failure_threshold := 3, timeout := 1, failures := 3,
    last_failure := some 0, state := .opened }

/-- A breaker with threshold 1 and timeout 1 that opened after a single
failure at time 0. -/
def unitBreakerOpened : CircuitBreaker :=
  { failure_threshold := 1, timeout := 1, failures := 1,
    last_failure := some 0, state := .opened }

/-- The same breaker once the admission phase of a later call moved it to
half-open. -/
def unitBreakerHalfOpen : CircuitBreaker :=
  { unitBreakerOpened with state := .halfOpen }

/-! ## Helper lemmas -/

/-- Transport of breaker reachability along an equality of states. -/
theorem CircuitBreaker.Reached.cast {c c' : CircuitBreaker}
    (h : CircuitBreaker.Reached c) (e : c = c') : CircuitBreaker.Reached c' := e ▸ h

/-- The admission phase either passes the breaker through unchanged or flips
an open breaker to half-open; it never changes the threshold or the failure
counter. -/
theorem CircuitBreaker.pre_some {c c' : CircuitBreaker} {n : ℚ} (h : c.pre n = some c') :
    c'.failure_threshold = c.failure_threshold ∧ c'.failures = c.failures ∧
    (c' = c ∨ (c.state = .opened ∧ c'.state = .halfOpen)) := by
  cases hs : c.state with
  | closed =>
    have he : c = c' := by simpa [CircuitBreaker.pre, hs] using h
    subst he
    exact ⟨rfl, rfl, Or.inl rfl⟩
  | halfOpen =>
    have he : c = c' := by simpa [CircuitBreaker.pre, hs] using h
    subst he
    exact ⟨rfl, rfl, Or.inl rfl⟩
  | opened =>
    cases hlf : c.last_failure with
    | none => simp [CircuitBreaker.pre, hs, hlf] at h
    | some lf =>
      simp only [CircuitBreaker.pre, hs, hlf] at h
      by_cases ht : c.timeout < n - lf
      · rw [if_pos ht] at h
        have he := Option.some_inj.mp h
        subst he
        exact ⟨rfl, rfl, Or.inr ⟨rfl, rfl⟩⟩
      · rw [if_neg ht] at h
        exact absurd h (by simp)

/-- The completion phase preserves the invariant "a non-closed breaker has at
least `failure_threshold` recorded failures". -/
theorem CircuitBreaker.post_threshold {c : CircuitBreaker} (m : ℚ) (b : Bool)
    (ih : c.state ≠ .closed → c.failure_threshold ≤ c.failures) :
    (c.post m b).state ≠ .closed → (c.post m b).failure_threshold ≤ (c.post m b).failures := by
  simp only [CircuitBreaker.post]
  split
  · split
    · simp
    · exact ih
  · split
    · next hf => intro _; exact hf
    · next hf => intro hne; exact Nat.le_succ_of_le (ih hne)

/-- Invariant: every reachable breaker that is not closed has accumulated at
least `failure_threshold` consecutive failures. -/
theorem CircuitBreaker.reached_threshold {c : CircuitBreaker} (h : c.Reached) :
    c.state ≠ .closed → c.failure_threshold ≤ c.failures := by
  induction h with
  | init t q => intro hne; exact absurd rfl hne
  | admitted c c' n hc hpre ih =>
    obtain ⟨hth, hf, hor⟩ := CircuitBreaker.pre_some hpre
    rcases hor with rfl | ⟨hs, _⟩
    · exact ih
    · intro _
      rw [hth, hf]
      exact ih (by simp [hs])
  | completed c c' n m b hc hpre ih =>
    refine CircuitBreaker.post_threshold m b ?_
    obtain ⟨hth, hf, hor⟩ := CircuitBreaker.pre_some hpre
    rcases hor with rfl | ⟨hs, _⟩
    · exact ih
    · intro _
      rw [hth, hf]
      exact ih (by simp [hs])

/-- Invariant: under a monotone clock and nonnegative costs, a reachable
bucket keeps nonnegative parameters and `0 ≤ tokens ≤ capacity`. -/
theorem RateLimiter.reached_invariant {s : RateLimiter} (h : s.Reached) :
    0 ≤ s.rate ∧ 0 ≤ s.capacity ∧ 0 ≤ s.tokens ∧ s.tokens ≤ s.capacity := by
  induction h with
  | init r c t hr hc => exact ⟨hr, hc, hc, le_refl c⟩
  | step s n k hs hn hk ih =>
    obtain ⟨hr, hc, ht, htc⟩ := ih
    have hel : 0 ≤ (n - s.last_update) * s.rate := mul_nonneg (by linarith) hr
    have h0 : 0 ≤ min s.capacity (s.tokens + (n - s.last_update) * s.rate) :=
      le_min hc (by linarith)
    have h1 : min s.capacity (s.tokens + (n - s.last_update) * s.rate) ≤ s.capacity :=
      min_le_left _ _
    simp only [RateLimiter.acquire]
    split
    · next hle =>
      refine ⟨hr, hc, ?_, ?_⟩
      · dsimp only
        linarith
      · dsimp only
        linarith
    · next hle => exact ⟨hr, hc, h0, h1⟩

/-! ## Claim C6 -/

/-- C6 (counterexample to the claim as stated): `RateLimiter.acquire` does not
clamp negative elapsed time. For a bucket built as `RateLimiter(rate=1,
capacity=10)` at time 100, an `acquire(1)` call made after the wall clock
jumped back to 0 refills `elapsed * rate = -100` tokens and leaves the token
count at `-90 < 0`, violating `0 ≤ tokens` at that observation point (clamping
would have left 9 tokens). -/
theorem c6_no_clamp_counterexample :
    ((mkRateLimiter 1 10 100).acquire 0 1).2.tokens = -90 ∧
    ((mkRateLimiter 1 10 100).acquire 0 1).2.tokens < 0 := by
  constructor <;> norm_num [RateLimiter.acquire, mkRateLimiter, min_def]

/-- C6 (amended): the controller does not clamp negative elapsed time; the
invariant `0 ≤ tokens ≤ capacity` holds at every observation point of every
sequence of `acquire` calls in which the wall clock never moves backwards
(each call's `now` is at least the previous update time) and rate, capacity
and costs are nonnegative. -/
theorem c6_tokens_in_bounds (s : RateLimiter) (h : s.Reached) :
    0 ≤ s.tokens ∧ s.tokens ≤ s.capacity :=
  ⟨(RateLimiter.reached_invariant h).2.2.1, (RateLimiter.reached_invariant h).2.2.2⟩

/-- C6 witness: the amended invariant applied to the concrete bucket
`RateLimiter(rate=2, capacity=10)` built at time 0, after one `acquire(1)` at
time 1. -/
theorem c6_tokens_in_bounds_witness :
    0 ≤ ((mkRateLimiter 2 10 0).acquire 1 1).2.tokens ∧
    ((mkRateLimiter 2 10 0).acquire 1 1).2.tokens ≤ ((mkRateLimiter 2 10 0).acquire 1 1).2.capacity :=
  c6_tokens_in_bounds _
    (.step (mkRateLimiter 2 10 0) 1 1 (.init 2 10 0 (by norm_num) (by norm_num))
      (by norm_num [mkRateLimiter]) (by norm_num))

/-! ## Claim C7 -/

/-- C7: `acquire` first refills `elapsed * rate` tokens capped at `capacity`
and sets the refill timestamp to `now`; it returns `true` and deducts `cost`
iff the post-refill balance minus `cost` stays nonnegative, and returns
`false` leaving the post-refill balance untouched otherwise. Moreover, for a
bucket with capacity 10 and rate 0, ten `acquire(1)` calls succeed and the
eleventh returns `false`. -/
theorem c7_acquire_contract (s : RateLimiter) (now cost : ℚ) :
    ((s.acquire now cost).2.last_update = now) ∧
    (0 ≤ min s.capacity (s.tokens + (now - s.last_update) * s.rate) - cost →
      s.acquire now cost = (true,
        { s with tokens := min s.capacity (s.tokens + (now - s.last_update) * s.rate) - cost,
                 last_update := now })) ∧
    (min s.capacity (s.tokens + (now - s.last_update) * s.rate) - cost < 0 →
      s.acquire now cost = (false,
        { s with tokens := min s.capacity (s.tokens + (now - s.last_update) * s.rate),
                 last_update := now })) ∧
    ((RateLimiter.acquireSeq (mkRateLimiter 0 10 0) [0,0,0,0,0,0,0,0,0,0,0]).1 =
      [true,true,true,true,true,true,true,true,true,true,false]) := by
  refine ⟨?_, ?_, ?_, ?_⟩
  · simp only [RateLimiter.acquire]
    split <;> rfl
  · intro h
    simp only [RateLimiter.acquire, if_pos (by linarith : cost ≤ min s.capacity (s.tokens + (now - s.last_update) * s.rate))]
  · intro h
    simp only [RateLimiter.acquire, if_neg (by intro hc; linarith : ¬ cost ≤ min s.capacity (s.tokens + (now - s.last_update) * s.rate))]
  · norm_num [RateLimiter.acquireSeq, RateLimiter.acquire, mkRateLimiter, min_def]

/-- C7 witness: the contract applied to the concrete bucket
`RateLimiter(rate=0, capacity=10)` at time 0 with cost 1: the call succeeds
and leaves 9 tokens. -/
theorem c7_acquire_contract_witness :
    (mkRateLimiter 0 10 0).acquire 0 1 =
      (true, { rate := 0, capacity := 10, tokens := 9, last_update := 0 }) := by
  have h := (c7_acquire_contract (mkRateLimiter 0 10 0) 0 1).2.1
    (by norm_num [mkRateLimiter, min_def])
  rw [h]
  norm_num [mkRateLimiter, min_def]

/-! ## Claim C4 -/

/-- C4 (counterexample to the claim as stated): the claim says that whenever
`now − last_failure ≥ timeout` the open breaker transitions to half-open and
lets the call through, but `CircuitBreaker.call` tests `now - last_failure >
timeout` strictly: with threshold 3, timeout 1, last failure at 0, a call at
time 1 has `now − last_failure = 1 ≥ 1 = timeout` yet is rejected without
invoking the operation, and the state stays open. -/
theorem c4_boundary_counterexample :
    (1 : ℚ) - 0 ≥ openTestBreaker.timeout ∧ openTestBreaker.pre 1 = none := by
  constructor
  · norm_num [openTestBreaker]
  · norm_num [CircuitBreaker.pre, openTestBreaker]

/-- C4 (amended): while the breaker is open with last failure at `lf`, a call
at `now` is rejected without invoking the operation whenever
`now − lf ≤ timeout` (in particular whenever `now − lf < timeout`, as the
claim states), and the breaker transitions to half-open with the call allowed
through as a trial exactly when `now − lf > timeout` (strictly). -/
theorem c4_open_gate (c : CircuitBreaker) (now lf : ℚ)
    (hst : c.state = .opened) (hlf : c.last_failure = some lf) :
    (now - lf < c.timeout → c.pre now = none) ∧
    (now - lf ≤ c.timeout → c.pre now = none) ∧
    (c.timeout < now - lf → c.pre now = some { c with state := .halfOpen }) := by
  refine ⟨?_, ?_, ?_⟩
  · intro h
    simp [CircuitBreaker.pre, hst, hlf, not_lt.mpr (le_of_lt h)]
  · intro h
    simp [CircuitBreaker.pre, hst, hlf, not_lt.mpr h]
  · intro h
    simp [CircuitBreaker.pre, hst, hlf, h]

/-- C4 witness: the spec's end-to-end scenario (threshold 3, timeout 1, last
failure at 0): a call 0.5s later is rejected without invoking the backend, a
call 1.1s later is let through as a trial in half-open state. -/
theorem c4_open_gate_witness :
    openTestBreaker.pre (1/2) = none ∧
    openTestBreaker.pre (11/10) = some { openTestBreaker with state := .halfOpen } :=
  ⟨(c4_open_gate openTestBreaker (1/2) 0 rfl rfl).1 (by norm_num [openTestBreaker]),
   (c4_open_gate openTestBreaker (11/10) 0 rfl rfl).2.2 (by norm_num [openTestBreaker])⟩

/-! ## Claim C5 -/

/-- C5: for every reachable breaker in the half-open state, a successful trial
closes the breaker and resets the consecutive-failure counter to 0, and a
failed trial re-opens the breaker and refreshes the last-failure timestamp to
the current time. -/
theorem c5_halfopen_trial (c : CircuitBreaker) (now : ℚ)
    (h : c.Reached) (hst : c.state = .halfOpen) :
    (c.post now true = { c with state := .closed, failures := 0 }) ∧
    ((c.post now false).state = .opened ∧ (c.post now false).last_failure = some now) := by
  have hth : c.failure_threshold ≤ c.failures :=
    CircuitBreaker.reached_threshold h (by simp [hst])
  refine ⟨?_, ?_, ?_⟩
  · simp [CircuitBreaker.post, hst]
  · simp [CircuitBreaker.post, Nat.le_succ_of_le hth]
  · simp [CircuitBreaker.post, Nat.le_succ_of_le hth]

/-- C5 witness: with threshold 1 and timeout 1, one backend failure at time 0
opens the breaker, and the admission phase of a call at time 2 moves it to
half-open; the trial outcome at time 5 then behaves as the theorem states. -/
theorem c5_halfopen_trial_witness :
    (unitBreakerHalfOpen.post 5 true = { unitBreakerHalfOpen with state := .closed, failures := 0 }) ∧
    ((unitBreakerHalfOpen.post 5 false).state = .opened ∧
     (unitBreakerHalfOpen.post 5 false).last_failure = some 5) := by
  have h1 : CircuitBreaker.Reached unitBreakerOpened :=
    (CircuitBreaker.Reached.completed (mkCircuitBreaker 1 1) (mkCircuitBreaker 1 1)
        0 0 false (.init 1 1) rfl).cast
      (by norm_num [CircuitBreaker.post, mkCircuitBreaker, unitBreakerOpened])
  have h2 : CircuitBreaker.Reached unitBreakerHalfOpen :=
    .admitted unitBreakerOpened unitBreakerHalfOpen 2 h1
      (by norm_num [CircuitBreaker.pre, unitBreakerOpened, unitBreakerHalfOpen])
  exact c5_halfopen_trial unitBreakerHalfOpen 5 h2 rfl

/-! ## Claim C9 -/

/-- C9: `put(k, r)` followed immediately by `get(k)` (same clock reading)
returns `r` whenever the TTL is positive; and once `ttl` seconds have elapsed
since insertion, `get(k)` reports the entry absent and deletes it from the
cache map, even though the caller never removed it. -/
theorem c9_cache_roundtrip (cache : Cache) (k : String) (r : Response) (t now ttl : ℚ) :
    (0 < ttl → (checkCache (updateCache cache k r t) ttl k t).1 = some r) ∧
    (ttl ≤ now - t →
      (checkCache (updateCache cache k r t) ttl k now).1 = none ∧
      (checkCache (updateCache cache k r t) ttl k now).2 k = none) := by
  constructor
  · intro h
    simp [checkCache, updateCache, h, show t - t < ttl by linarith]
  · intro h
    simp [checkCache, updateCache, show ¬ now - t < ttl by linarith]

/-- C9 witness: an empty cache, `put` of `okResponse` at time 0 with TTL 300:
an immediate `get` returns the response, and a `get` at time 300 reports it
absent and removes the entry. -/
theorem c9_cache_roundtrip_witness :
    ((checkCache (updateCache (fun _ => none) "k" okResponse 0) 300 "k" 0).1 = some okResponse) ∧
    ((checkCache (updateCache (fun _ => none) "k" okResponse 0) 300 "k" 300).1 = none ∧
     (checkCache (updateCache (fun _ => none) "k" okResponse 0) 300 "k" 300).2 "k" = none) :=
  ⟨(c9_cache_roundtrip (fun _ => none) "k" okResponse 0 300 300).1 (by norm_num),
   (c9_cache_roundtrip (fun _ => none) "k" okResponse 0 300 300).2 (by norm_num)⟩

/-! ## Claim C1 -/

/-- C1: `execute` never propagates an error. When admission is rejected, when
the circuit breaker rejects the call as open, or when the backend raises,
`execute` returns a `Response` with `success = false`, `confidence = 0` and an
empty `tools_used` list (in the model, totality of `Bridge.execute` captures
"always returns a Result and never raises"). -/
theorem c1_failure_result (b : Bridge) (m : Message) (t0 t1 : ℚ)
    (backend : Except String Response) (msg : String) :
    ((b.rate_limiter.acquire t0 1).1 = false →
      ((b.execute m t0 t1 backend).response.success = false ∧
       (b.execute m t0 t1 backend).response.confidence = 0 ∧
       (b.execute m t0 t1 backend).response.tools_used = [])) ∧
    ((b.rate_limiter.acquire t0 1).1 = true →
      (checkCache b.cache b.cache_ttl (getCacheKey m) t0).1 = none →
      b.circuit_breaker.pre t0 = none →
      ((b.execute m t0 t1 backend).response.success = false ∧
       (b.execute m t0 t1 backend).response.confidence = 0 ∧
       (b.execute m t0 t1 backend).response.tools_used = [])) ∧
    ((b.rate_limiter.acquire t0 1).1 = true →
      (checkCache b.cache b.cache_ttl (getCacheKey m) t0).1 = none →
      backend = .error msg →
      ((b.execute m t0 t1 backend).response.success = false ∧
       (b.execute m t0 t1 backend).response.confidence = 0 ∧
       (b.execute m t0 t1 backend).response.tools_used = [])) := by
  refine ⟨?_, ?_, ?_⟩
  · intro h
    simp [Bridge.execute, h, failOutcome, errResponse]
  · intro h1 h2 h3
    simp [Bridge.execute, h1, h2, h3, failOutcome, errResponse]
  · intro h1 h2 h3
    subst h3
    cases hp : b.circuit_breaker.pre t0 with
    | none => simp [Bridge.execute, h1, h2, hp, failOutcome, errResponse]
    | some cb => simp [Bridge.execute, h1, h2, hp, failOutcome, errResponse]

/-- C1 witness: a rate-limited call on a bridge whose bucket is empty returns
the failed result shape. -/
theorem c1_failure_result_witness :
    (drainedBridge.execute sampleMsg 0 0 (.ok okResponse)).response.success = false ∧
    (drainedBridge.execute sampleMsg 0 0 (.ok okResponse)).response.confidence = 0 ∧
    (drainedBridge.execute sampleMsg 0 0 (.ok okResponse)).response.tools_used = [] :=
  (c1_failure_result drainedBridge sampleMsg 0 0 (.ok okResponse) "").1
    (by norm_num [drainedBridge, RateLimiter.acquire, min_def])

/-! ## Claim C2 -/

/-- C2 (counterexample to the claim as stated): the cache-hit return path of
`execute` updates none of the aggregate counters. On a bridge whose cache
already holds a fresh entry for the request, `execute` completes and returns
the cached response, yet `request_count`, `total_latency` and `error_count`
are all unchanged. -/
theorem c2_cache_hit_counterexample :
    (cachedBridge.execute sampleMsg 1 2 (.error "x")).response = okResponse ∧
    (cachedBridge.execute sampleMsg 1 2 (.error "x")).bridge.request_count
      = cachedBridge.request_count ∧
    (cachedBridge.execute sampleMsg 1 2 (.error "x")).bridge.total_latency
      = cachedBridge.total_latency ∧
    (cachedBridge.execute sampleMsg 1 2 (.error "x")).bridge.error_count
      = cachedBridge.error_count := by
  refine ⟨?_, ?_, ?_, ?_⟩ <;>
    norm_num [Bridge.execute, cachedBridge, mkBridge, mkRateLimiter, RateLimiter.acquire,
      checkCache, updateCache, getCacheKey, min_def]

/-- C2 (amended): only the backend-success path updates `request_count` and
`total_latency` (by the call's latency `t1 - t0`); the rate-limited,
breaker-open and backend-raise paths update `error_count` only; and the
cache-hit path updates none of the three counters. -/
theorem c2_counter_updates (b : Bridge) (m : Message) (t0 t1 : ℚ)
    (backend : Except String Response) (msg : String) (r : Response) :
    ((b.rate_limiter.acquire t0 1).1 = false →
      ((b.execute m t0 t1 backend).bridge.error_count = b.error_count + 1 ∧
       (b.execute m t0 t1 backend).bridge.request_count = b.request_count ∧
       (b.execute m t0 t1 backend).bridge.total_latency = b.total_latency)) ∧
    ((b.rate_limiter.acquire t0 1).1 = true →
      (checkCache b.cache b.cache_ttl (getCacheKey m) t0).1 = some r →
      ((b.execute m t0 t1 backend).bridge.error_count = b.error_count ∧
       (b.execute m t0 t1 backend).bridge.request_count = b.request_count ∧
       (b.execute m t0 t1 backend).bridge.total_latency = b.total_latency)) ∧
    ((b.rate_limiter.acquire t0 1).1 = true →
      (checkCache b.cache b.cache_ttl (getCacheKey m) t0).1 = none →
      b.circuit_breaker.pre t0 = none →
      ((b.execute m t0 t1 backend).bridge.error_count = b.error_count + 1 ∧
       (b.execute m t0 t1 backend).bridge.request_count = b.request_count ∧
       (b.execute m t0 t1 backend).bridge.total_latency = b.total_latency)) ∧
    ((b.rate_limiter.acquire t0 1).1 = true →
      (checkCache b.cache b.cache_ttl (getCacheKey m) t0).1 = none →
      backend = .error msg →
      ((b.execute m t0 t1 backend).bridge.error_count = b.error_count + 1 ∧
       (b.execute m t0 t1 backend).bridge.request_count = b.request_count ∧
       (b.execute m t0 t1 backend).bridge.total_latency = b.total_latency)) ∧
    ((b.rate_limiter.acquire t0 1).1 = true →
      (checkCache b.cache b.cache_ttl (getCacheKey m) t0).1 = none →
      backend = .ok r →
      ∀ cb : CircuitBreaker, b.circuit_breaker.pre t0 = some cb →
      ((b.execute m t0 t1 backend).bridge.error_count = b.error_count ∧
       (b.execute m t0 t1 backend).bridge.request_count = b.request_count + 1 ∧
       (b.execute m t0 t1 backend).bridge.total_latency = b.total_latency + (t1 - t0))) := by
  refine ⟨?_, ?_, ?_, ?_, ?_⟩
  · intro h
    simp [Bridge.execute, h, failOutcome]
  · intro h1 h2
    simp [Bridge.execute, h1, h2]
  · intro h1 h2 h3
    simp [Bridge.execute, h1, h2, h3, failOutcome]
  · intro h1 h2 h3
    subst h3
    cases hp : b.circuit_breaker.pre t0 with
    | none => simp [Bridge.execute, h1, h2, hp, failOutcome]
    | some cb => simp [Bridge.execute, h1, h2, hp, failOutcome]
  · intro h1 h2 h3 cb hp
    subst h3
    simp [Bridge.execute, h1, h2, hp]

/-- C2 witness: a backend-success call on a fresh bridge bumps `request_count`
to 1, adds the latency `3 - 1 = 2` to `total_latency`, and leaves
`error_count` at 0. -/
theorem c2_counter_updates_witness :
    ((mkBridge 0).execute sampleMsg 1 3 (.ok okResponse)).bridge.error_count = 0 ∧
    ((mkBridge 0).execute sampleMsg 1 3 (.ok okResponse)).bridge.request_count = 0 + 1 ∧
    ((mkBridge 0).execute sampleMsg 1 3 (.ok okResponse)).bridge.total_latency = 0 + (3 - 1) := by
  have h := (c2_counter_updates (mkBridge 0) sampleMsg 1 3 (.ok okResponse) "" okResponse).2.2.2.2
    (by norm_num [mkBridge, mkRateLimiter, RateLimiter.acquire, min_def])
    (by norm_num [mkBridge, checkCache])
    rfl (mkBridge 0).circuit_breaker
    (by norm_num [mkBridge, mkCircuitBreaker, CircuitBreaker.pre])
  simpa [mkBridge] using h

/-! ## Claim C3 -/

/-- C3 (counterexample to the claim as stated): when the first call's backend
raises, nothing is cached, so a second admitted call with identical content
inside the TTL window invokes the backend a second time, and its success flag
can differ from the first call's. On a fresh bridge, a call at time 0 whose
backend raises and a call at time 1 whose backend returns `okResponse` both
invoke the backend (twice in total), the first returns `success = false`, the
second `success = true`. -/
theorem c3_counterexample :
    ((mkBridge 0).execute sampleMsg 0 0 (.error "backend down")).backendInvoked = true ∧
    (((mkBridge 0).execute sampleMsg 0 0 (.error "backend down")).bridge.execute
        sampleMsg 1 1 (.ok okResponse)).backendInvoked = true ∧
    ((mkBridge 0).execute sampleMsg 0 0 (.error "backend down")).response.success = false ∧
    (((mkBridge 0).execute sampleMsg 0 0 (.error "backend down")).bridge.execute
        sampleMsg 1 1 (.ok okResponse)).response.success = true := by
  refine ⟨?_, ?_, ?_, ?_⟩ <;>
    norm_num [Bridge.execute, mkBridge, mkRateLimiter, mkCircuitBreaker, RateLimiter.acquire,
      checkCache, updateCache, getCacheKey, CircuitBreaker.pre, CircuitBreaker.post,
      failOutcome, errResponse, okResponse, min_def]

/-- C3 (amended): if the first admitted call misses the cache, is let through
by the breaker, and its backend invocation returns a `Response` `r` (rather
than raising), then across that call and a second admitted call with
identical content made while the cached entry is fresh
(`u0 − t1 < cache_ttl`), the backend is invoked exactly once: the first call
invokes it, the second call does not, returns the cached `r` itself, and in
particular reports the same success flag as the first call. -/
theorem c3_cached_idempotence (b : Bridge) (m m' : Message) (t0 t1 u0 u1 : ℚ)
    (r : Response) (be : Except String Response) (cb : CircuitBreaker)
    (hm : m'.content = m.content)
    (h1 : (b.rate_limiter.acquire t0 1).1 = true)
    (h2 : (checkCache b.cache b.cache_ttl (getCacheKey m) t0).1 = none)
    (h3 : b.circuit_breaker.pre t0 = some cb)
    (h4 : ((b.execute m t0 t1 (.ok r)).bridge.rate_limiter.acquire u0 1).1 = true)
    (h5 : u0 - t1 < b.cache_ttl) :
    (b.execute m t0 t1 (.ok r)).backendInvoked = true ∧
    ((b.execute m t0 t1 (.ok r)).bridge.execute m' u0 u1 be).backendInvoked = false ∧
    ((b.execute m t0 t1 (.ok r)).bridge.execute m' u0 u1 be).response = r ∧
    ((b.execute m t0 t1 (.ok r)).bridge.execute m' u0 u1 be).response.success
      = (b.execute m t0 t1 (.ok r)).response.success := by
  have key : getCacheKey m' = getCacheKey m := by simp [getCacheKey, hm]
  simp only [Bridge.execute, h1, h2, h3, if_true] at h4 ⊢
  simp [Bridge.execute, h1, h2, h3, h4, key, checkCache, updateCache, h5]

/-- C3 witness: a fresh bridge, a successful backend call at times 0→1, and a
second identical request at times 2→3 (well inside the 300s TTL): the backend
runs once, the second call answers from the cache with the first call's
response. -/
theorem c3_cached_idempotence_witness :
    ((mkBridge 0).execute sampleMsg 0 1 (.ok okResponse)).backendInvoked = true ∧
    (((mkBridge 0).execute sampleMsg 0 1 (.ok okResponse)).bridge.execute
        sampleMsg 2 3 (.error "x")).backendInvoked = false ∧
    (((mkBridge 0).execute sampleMsg 0 1 (.ok okResponse)).bridge.execute
        sampleMsg 2 3 (.error "x")).response = okResponse ∧
    (((mkBridge 0).execute sampleMsg 0 1 (.ok okResponse)).bridge.execute
        sampleMsg 2 3 (.error "x")).response.success
      = ((mkBridge 0).execute sampleMsg 0 1 (.ok okResponse)).response.success := by
  have h := c3_cached_idempotence (mkBridge 0) sampleMsg sampleMsg 0 1 2 3 okResponse
    (.error "x") (mkBridge 0).circuit_breaker rfl
    (by norm_num [mkBridge, mkRateLimiter, RateLimiter.acquire, min_def])
    (by norm_num [mkBridge, checkCache])
    (by norm_num [mkBridge, mkCircuitBreaker, CircuitBreaker.pre])
    (by norm_num [Bridge.execute, mkBridge, mkRateLimiter, mkCircuitBreaker,
      RateLimiter.acquire, checkCache, updateCache, getCacheKey, CircuitBreaker.pre,
      CircuitBreaker.post, min_def])
    (by norm_num [mkBridge])
  exact ⟨h.1, h.2.1, h.2.2.1, h.2.2.2⟩

/-! ## Claim C8 -/

/-- C8 (counterexample to the claim as stated): the rate-limited, breaker-open
and backend-raise paths all return a Result with the identical generic content
string, so an admission rejection's content does not differ from the contents
synthesized for breaker-open and backend failures. -/
theorem c8_same_content_counterexample :
    (drainedBridge.execute sampleMsg 0 0 (.ok okResponse)).response.content
      = (openBridge.execute sampleMsg 0 0 (.ok okResponse)).response.content ∧
    (openBridge.execute sampleMsg 0 0 (.ok okResponse)).response.content
      = ((mkBridge 0).execute sampleMsg 0 0 (.error "boom")).response.content ∧
    (drainedBridge.execute sampleMsg 0 0 (.ok okResponse)).response.success = false ∧
    (openBridge.execute sampleMsg 0 0 (.ok okResponse)).response.success = false ∧
    ((mkBridge 0).execute sampleMsg 0 0 (.error "boom")).response.success = false := by
  refine ⟨?_, ?_, ?_, ?_, ?_⟩ <;>
    norm_num [Bridge.execute, drainedBridge, openBridge, mkBridge, mkRateLimiter,
      mkCircuitBreaker, RateLimiter.acquire, checkCache, updateCache, getCacheKey,
      CircuitBreaker.pre, CircuitBreaker.post, failOutcome, errResponse, min_def]

/-- C8 (amended): each failure class yields a failed Result whose content is
the same fixed apology string; what distinguishes the classes is only the
exception message recorded in the trace metadata ("Rate limit exceeded -
please retry" for admission rejection, "Circuit breaker is open" for an open
breaker, and the backend's own message for a backend raise), not the Result's
content. -/
theorem c8_failure_classes (b : Bridge) (m : Message) (t0 t1 : ℚ)
    (backend : Except String Response) (msg : String) :
    ((b.rate_limiter.acquire t0 1).1 = false →
      ((b.execute m t0 t1 backend).response.content
          = "I apologize, but I encountered an error. Please try again." ∧
       (b.execute m t0 t1 backend).traceError = some "Rate limit exceeded - please retry")) ∧
    ((b.rate_limiter.acquire t0 1).1 = true →
      (checkCache b.cache b.cache_ttl (getCacheKey m) t0).1 = none →
      b.circuit_breaker.pre t0 = none →
      ((b.execute m t0 t1 backend).response.content
          = "I apologize, but I encountered an error. Please try again." ∧
       (b.execute m t0 t1 backend).traceError = some "Circuit breaker is open")) ∧
    ((b.rate_limiter.acquire t0 1).1 = true →
      (checkCache b.cache b.cache_ttl (getCacheKey m) t0).1 = none →
      ∀ cb : CircuitBreaker, b.circuit_breaker.pre t0 = some cb →
      backend = .error msg →
      ((b.execute m t0 t1 backend).response.content
          = "I apologize, but I encountered an error. Please try again." ∧
       (b.execute m t0 t1 backend).traceError = some msg)) := by
  refine ⟨?_, ?_, ?_⟩
  · intro h
    simp [Bridge.execute, h, failOutcome, errResponse]
  · intro h1 h2 h3
    simp [Bridge.execute, h1, h2, h3, failOutcome, errResponse]
  · intro h1 h2 cb h3 h4
    subst h4
    simp [Bridge.execute, h1, h2, h3, failOutcome, errResponse]

/-- C8 witness: the admission-rejected call on the drained bridge carries the
generic apology content and the rate-limit trace message. -/
theorem c8_failure_classes_witness :
    (drainedBridge.execute sampleMsg 0 0 (.ok okResponse)).response.content
      = "I apologize, but I encountered an error. Please try again." ∧
    (drainedBridge.execute sampleMsg 0 0 (.ok okResponse)).traceError
      = some "Rate limit exceeded - please retry" :=
  (c8_failure_classes drainedBridge sampleMsg 0 0 (.ok okResponse) "").1
    (by norm_num [drainedBridge, RateLimiter.acquire, min_def])

/-! ## Claim C10 -/

/-- C10: failure classification is by raised exception only. When the backend
returns a `Response` `r` with `success = false` (instead of raising), the
breaker treats the call as a success: its failure counter is not incremented
(a half-open trial even closes the breaker and resets the counter to 0), the
bridge caches `r` under the request's fingerprint, records `request_success`
(plus `response_time` and `confidence`) telemetry, bumps `request_count` and
leaves `error_count` alone — exactly as for a successful response. -/
theorem c10_returned_failure_is_success (b : Bridge) (m : Message) (t0 t1 : ℚ)
    (r : Response) (cb : CircuitBreaker)
    (h1 : (b.rate_limiter.acquire t0 1).1 = true)
    (h2 : (checkCache b.cache b.cache_ttl (getCacheKey m) t0).1 = none)
    (h3 : b.circuit_breaker.pre t0 = some cb)
    (hr : r.success = false) :
    (b.execute m t0 t1 (.ok r)).bridge.circuit_breaker.failures
      ≤ b.circuit_breaker.failures ∧
    (cb.state = .halfOpen →
      ((b.execute m t0 t1 (.ok r)).bridge.circuit_breaker.state = .closed ∧
       (b.execute m t0 t1 (.ok r)).bridge.circuit_breaker.failures = 0)) ∧
    (b.execute m t0 t1 (.ok r)).bridge.cache (getCacheKey m)
      = some { response := r, timestamp := t1 } ∧
    (b.execute m t0 t1 (.ok r)).telemetry = ["request_success", "response_time", "confidence"] ∧
    (b.execute m t0 t1 (.ok r)).bridge.request_count = b.request_count + 1 ∧
    (b.execute m t0 t1 (.ok r)).bridge.error_count = b.error_count ∧
    (b.execute m t0 t1 (.ok r)).response = r := by
  obtain ⟨hth, hfail, hor⟩ := CircuitBreaker.pre_some h3
  have hbr : (b.execute m t0 t1 (.ok r)).bridge.circuit_breaker = cb.post t1 true := by
    simp [Bridge.execute, h1, h2, h3]
  refine ⟨?_, ?_, ?_, ?_, ?_, ?_, ?_⟩
  · rw [hbr]
    simp only [CircuitBreaker.post, if_true]
    split
    · exact Nat.zero_le _
    · exact le_of_eq hfail
  · intro hs
    rw [hbr]
    constructor <;> simp [CircuitBreaker.post, hs]
  · simp [Bridge.execute, h1, h2, h3, updateCache]
  · simp [Bridge.execute, h1, h2, h3]
  · simp [Bridge.execute, h1, h2, h3]
  · simp [Bridge.execute, h1, h2, h3]
  · simp [Bridge.execute, h1, h2, h3]

/-- C10 witness: a bridge whose breaker is half-open, given a backend that
returns `failResponse` (`success = false`): the breaker closes with counter 0,
the failed response is cached at time 1, success telemetry is recorded, and
the counters move as on success. -/
theorem c10_returned_failure_is_success_witness :
    (halfOpenBridge.execute sampleMsg 0 1 (.ok failResponse)).bridge.circuit_breaker.state
      = .closed ∧
    (halfOpenBridge.execute sampleMsg 0 1 (.ok failResponse)).bridge.circuit_breaker.failures
      = 0 ∧
    (halfOpenBridge.execute sampleMsg 0 1 (.ok failResponse)).bridge.cache
        (getCacheKey sampleMsg) = some { response := failResponse, timestamp := 1 } ∧
    (halfOpenBridge.execute sampleMsg 0 1 (.ok failResponse)).telemetry
      = ["request_success", "response_time", "confidence"] ∧
    (halfOpenBridge.execute sampleMsg 0 1 (.ok failResponse)).bridge.request_count = 0 + 1 ∧
    (halfOpenBridge.execute sampleMsg 0 1 (.ok failResponse)).bridge.error_count = 0 := by
  have h := c10_returned_failure_is_success halfOpenBridge sampleMsg 0 1 failResponse
    halfOpenBridge.circuit_breaker
    (by norm_num [halfOpenBridge, mkBridge, mkRateLimiter, RateLimiter.acquire, min_def])
    (by norm_num [halfOpenBridge, mkBridge, checkCache])
    (by norm_num [halfOpenBridge, CircuitBreaker.pre])
    rfl
  obtain ⟨_, hHalf, hc, ht, hrc, hec, _⟩ := h
  obtain ⟨hst, hf⟩ := hHalf rfl
  refine ⟨hst, hf, hc, ht, ?_, ?_⟩
  · simpa [halfOpenBridge, mkBridge] using hrc
  · simpa [halfOpenBridge, mkBridge] using hec
